import Mathlib

/-!
# SmartSynth file-generation lifecycle and per-user file registry

Shallow embedding of the file-registry / generation-dispatcher subsystem of
the SmartSynth synthetic-data platform, together with the client-side
statistics computation of `frontend/src/contexts/FilesContext.js` and the
request construction of `frontend/src/pages/ChatGeneration.js`.

The repository ships only the React frontend and the README; the FastAPI
backend (`backend/api/files.py`, `backend/api/generation.py`) is referenced
by the README but absent, so the registry and dispatcher operations are
modelled from the specification and say so in their doc comments.
-/

/-- A server-side FileRecord, as described in the spec data model (identifier,
owning user, filename, data kind, domain label, output format, byte size,
download counter).  Field names follow the JSON shape the frontend consumes
(`data_type`, `model_type`, `file_type`, `download_count`). -/
structure FileRecordS where
  id : String
  owner : String
  filename : String
  data_type : String
  model_type : String
  file_type : String
  size : Nat
  download_count : Nat
deriving DecidableEq, Repr

/-- A file object as the client code sees it: a loosely-typed JS object whose
`data_type`, `file_type` and `download_count` fields may be absent.  These are
the only fields `calculateStats` reads. -/
structure ClientFile where
  data_type : Option String
  file_type : Option String
  download_count : Option Nat
deriving DecidableEq, Repr

/-- JS `x || dflt` on an optional string: absent and the empty string are
falsy, any other string is returned unchanged. -/
def jsOrString (x : Option String) (dflt : String) : String :=
  match x with
  | none => dflt
  | some s => if s = "" then dflt else s

/-- JS `file.download_count || 0`: absent gives 0 (and 0, being falsy, also
gives the fallback 0, so the value is just `getD 0`). -/
def jsOrZero (x : Option Nat) : Nat :=
  x.getD 0

/-- One step of the JS dictionary-building loop
`dist[key] = (dist[key] || 0) + 1`, with the dictionary represented as a total
function defaulting to 0. -/
def addKey (m : String → Nat) (k : String) : String → Nat :=
  fun x => if x = k then m k + 1 else m x

/-- The distribution built by iterating `addKey` over a list of keys, exactly
as the `forEach` loops of `calculateStats` do. -/
def buildDist (keys : List String) : String → Nat :=
  keys.foldl addKey (fun _ => 0)

/-- Result shape of `calculateStats` in `FilesContext.js`. -/
structure Stats where
  total_files : Nat
  total_downloads : Nat
  total_generations : Nat
  data_type_distribution : String → Nat
  file_type_distribution : String → Nat

/-- Embedding of `calculateStats` (`FilesContext.js` lines 111-136):
`total_files` is the length of `files`, `total_downloads` reduces
`sum + (file.download_count || 0)` from 0, the two distributions count
occurrences of `file.data_type || 'unknown'` and `file.file_type || 'unknown'`,
and `total_generations` is `totalFiles` (one generation per file). -/
def calculateStats (files : List ClientFile) : Stats :=
  { total_files := files.length
    total_downloads := files.foldl (fun sum f => sum + jsOrZero f.download_count) 0
    total_generations := files.length
    data_type_distribution := buildDist (files.map (fun f => jsOrString f.data_type "unknown"))
    file_type_distribution := buildDist (files.map (fun f => jsOrString f.file_type "unknown")) }

/-- The registry store: persisted FileRecords plus the stored file contents
(durable bytes addressed by filename).  Modelled from the spec: the backend
persistence layer (`backend/database.py`) is not in the sources. -/
structure Store where
  records : List FileRecordS
  contents : List (String × List Char)
deriving DecidableEq, Repr

/-- Error taxonomy of the spec (section 7). -/
inductive RegError where
  | NotFound
  | InvalidRequest
  | GeneratorUnavailable
  | StorageFailure
deriving DecidableEq, Repr

/-- Look a record up by id. -/
def findRecord (s : Store) (fid : String) : Option FileRecordS :=
  s.records.find? (fun r => r.id == fid)

/-- Look stored content up by filename. -/
def lookupContent (s : Store) (fname : String) : Option (List Char) :=
  (s.contents.find? (fun c => c.1 == fname)).map Prod.snd

/-- Modelled from the spec: `list(owner)` returns only the records owned by
`owner` (`backend/api/files.py` is not in the sources). -/
def listFiles (owner : String) (s : Store) : List FileRecordS :=
  s.records.filter (fun r => r.owner == owner)

/-- Modelled from the spec: `get(owner, fileId)` fails with `NotFound` both
when the record is absent and when it is owned by a different user. -/
def getFile (owner : String) (fid : String) (s : Store) : Except RegError FileRecordS :=
  match findRecord s fid with
  | none => .error .NotFound
  | some r => if r.owner == owner then .ok r else .error .NotFound

/-- Increment the download counter of the records matching `fid`, leaving the
others untouched. -/
def bump (fid : String) (r : FileRecordS) : FileRecordS :=
  if r.id == fid then { r with download_count := r.download_count + 1 } else r

/-- The single atomic download-counter increment (the persistence layer's
native atomic update, e.g. a Mongo `$inc`): one store transition, no
read-modify-write window. -/
def atomicIncr (s : Store) (fid : String) : Store :=
  { records := s.records.map (bump fid)
    contents := s.contents }

/-- Modelled from the spec: `download(owner, fileId)` performs the `get`
ownership check, atomically increments the counter, and streams the bytes;
a record whose content is missing surfaces `StorageFailure`. -/
def download (owner : String) (fid : String) (s : Store) :
    Except RegError (Store × List Char) :=
  match getFile owner fid s with
  | .error e => .error e
  | .ok r =>
    match lookupContent s r.filename with
    | none => .error .StorageFailure
    | some bytes => .ok (atomicIncr s fid, bytes)

/-- Modelled from the spec: `delete(owner, fileId)` is ownership-checked and
removes both the FileRecord and its backing content. -/
def deleteFile (owner : String) (fid : String) (s : Store) : Except RegError Store :=
  match getFile owner fid s with
  | .error e => .error e
  | .ok r =>
    .ok { records := s.records.filter (fun q => !(q.id == fid))
          contents := s.contents.filter (fun c => !(c.1 == r.filename)) }

/-- The JSON shape a server record takes when the client receives it: every
field present. -/
def toClient (r : FileRecordS) : ClientFile :=
  { data_type := some r.data_type
    file_type := some r.file_type
    download_count := some r.download_count }

/-- Modelled from the spec: `stats(owner)` is the read-time aggregation the
client performs over the fetched `list(owner)` (the `/files/stats` backend
endpoint is not in the sources; `calculateStats` is the cited aggregation). -/
def statsOf (owner : String) (s : Store) : Stats :=
  calculateStats ((listFiles owner s).map toClient)

/-- A generation request (spec section 3): kind, domain selector, count,
output format, and the chat-only turn count. -/
structure GenRequest where
  kind : String
  domain : String
  count : Nat
  format : String
  num_turns : Option Nat
deriving DecidableEq, Repr

/-- Upper bound on the requested count per kind, as enforced by the forms:
`TabularGeneration` caps `numRecords` at 10000, `ChatGeneration` caps
`numConversations` at 1000. -/
def maxAllowed (kind : String) : Nat :=
  if kind = "tabular" then 10000 else 1000

/-- The fixed enumerated domains per kind, from the `domains`, `chatDomains`
and `emailDomains` arrays of the generation pages. -/
def kindDomains (kind : String) : List String :=
  if kind = "tabular" then ["ecommerce", "education", "finance", "medical"]
  else if kind = "chat" then ["customer_support", "chatbot_training", "general_conversation"]
  else if kind = "email" then ["spam_detection", "business_communication", "personal_emails"]
  else []

/-- The output formats each generation page offers. -/
def kindFormats (kind : String) : List String :=
  if kind = "tabular" then ["csv", "json", "excel"] else ["json", "csv"]

/-- Modelled from the spec: request validation against the enumerated
domain/kind table and numeric bounds (the backend validation code is not in
the sources; bounds and enumerations are those of the frontend forms). -/
def validRequest (req : GenRequest) : Bool :=
  decide (1 ≤ req.count) && decide (req.count ≤ maxAllowed req.kind) &&
    decide (req.domain ∈ kindDomains req.kind) &&
    decide (req.format ∈ kindFormats req.kind)

/-- Outcome of the call to the external generator: the collaborator either
fails outright or returns rows after `duration` time units. -/
inductive CollabResult where
  | failure
  | result (rows : List (List String)) (duration : Nat)
deriving DecidableEq, Repr

/-- The bound on the external AI collaborator call, 30 time units (spec
section 4.2); the frontend mirrors it with 30000 ms bounds. -/
def timeoutLimit : Nat := 30

/-- The 30000 ms `AbortController` bound set in `TabularGeneration.handleSubmit`. -/
def clientTimeoutMs : Nat := 30000

/-- The 30000 ms `timeout` and `proxyTimeout` set in `setupProxy.js`. -/
def proxyTimeoutMs : Nat := 30000

/-- One serialized row: comma-joined fields plus a line terminator. -/
def serializeRow (row : List String) : List Char :=
  (String.intercalate "," row).data ++ ['\n']

/-- Modelled from the spec: serialization of the generated rows into the
requested output format (the backend generators are not in the sources).
JSON output is a bracket-delimited array; the tabular encodings (csv/excel)
start with a header line. -/
def serialize (format : String) (rows : List (List String)) : List Char :=
  if format = "json" then '[' :: (rows.map serializeRow).flatten ++ [']']
  else serializeRow ["header"] ++ (rows.map serializeRow).flatten

/-- Modelled from the spec: the FileRecord the dispatcher persists on a
successful generation, bound to `owner`, sized by the serialized bytes, with
a fresh download counter. -/
def mkRecord (owner : String) (req : GenRequest) (rows : List (List String))
    (freshId freshName : String) : FileRecordS :=
  { id := freshId, owner := owner, filename := freshName,
    data_type := req.kind, model_type := req.domain, file_type := req.format,
    size := (serialize req.format rows).length, download_count := 0 }

/-- Modelled from the spec: `generate(owner, request)` (spec section 4.2,
`backend/api/generation.py` is not in the sources).  Validation failure gives
`InvalidRequest`; a collaborator error or a call exceeding `timeoutLimit`
gives `GeneratorUnavailable`; a persistence failure gives `StorageFailure`,
with the orphan content reclaimed immediately so the store is unchanged; on
success the serialized bytes are persisted under the fresh filename and one
FileRecord bound to `owner` is created.  The resulting store is returned in
every case so that partial-state questions are expressible. -/
def generate (owner : String) (req : GenRequest) (collab : CollabResult)
    (storageOk : Bool) (freshId freshName : String) (s : Store) :
    Store × Except RegError FileRecordS :=
  if validRequest req then
    match collab with
    | .failure => (s, .error .GeneratorUnavailable)
    | .result rows duration =>
      if timeoutLimit < duration then (s, .error .GeneratorUnavailable)
      else if storageOk then
        ({ records := mkRecord owner req rows freshId freshName :: s.records,
           contents := (freshName, serialize req.format rows) :: s.contents },
         .ok (mkRecord owner req rows freshId freshName))
      else (s, .error .StorageFailure)
  else (s, .error .InvalidRequest)

/-- The store invariant of spec section 3: no FileRecord ever references
missing content. -/
def wellFormed (s : Store) : Prop :=
  ∀ r ∈ s.records, ∃ b, lookupContent s r.filename = some b

/-- A schedule of atomic downloads: each element is the id of the file one
client downloads in that step; steps interleave in the order of the list. -/
def runSchedule (s : Store) (ops : List String) : Store :=
  ops.foldl atomicIncr s

/-- A JSON value of the request body (only strings and numbers occur). -/
inductive JsonVal where
  | str (s : String)
  | num (n : Nat)
deriving DecidableEq, Repr

/-- The state of the `ChatGeneration` form. -/
structure ChatForm where
  type : String
  domain : String
  numConversations : Nat
  avgMessagesPerConversation : Nat
  format : String
deriving DecidableEq, Repr

/-- Embedding of the body built in `ChatGeneration.handleSubmit` (lines
57-63): the JSON object posted to `/api/v1/generate/chat`, as the ordered
list of its key-value pairs. -/
def chatRequestBody (f : ChatForm) : List (String × JsonVal) :=
  [("domain", .str f.domain),
   ("topic", .str f.type),
   ("num_samples", .num f.numConversations),
   ("num_turns", .num f.avgMessagesPerConversation),
   ("format", .str f.format)]

/-- A small concrete registry state used to evaluate the theorems: one file
owned by alice, one owned by bob, both with stored content. -/
def sampleStore : Store :=
  { records :=
      [{ id := "f1", owner := "alice", filename := "a1.csv", data_type := "tabular",
         model_type := "finance", file_type := "csv", size := 10, download_count := 2 },
       { id := "f2", owner := "bob", filename := "b1.json", data_type := "chat",
         model_type := "customer_support", file_type := "json", size := 5, download_count := 1 }]
    contents := [("a1.csv", ['x']), ("b1.json", ['y'])] }

theorem foldl_add_jsOrZero (l : List ClientFile) :
    ∀ n : Nat, l.foldl (fun sum f => sum + jsOrZero f.download_count) n
      = n + (l.map (fun f => jsOrZero f.download_count)).sum := by
  induction l with
  | nil => intro n; simp
  | cons f l ih =>
    intro n
    simp only [List.foldl_cons, List.map_cons, List.sum_cons, ih]
    omega

/-- Occurrence count of a string in a list, written out so the distribution
lemmas stay definitional. -/
def countOcc : List String → String → Nat
  | [], _ => 0
  | a :: l, k => countOcc l k + (if a = k then 1 else 0)

theorem foldl_addKey (keys : List String) :
    ∀ (m : String → Nat) (k : String), (keys.foldl addKey m) k = m k + countOcc keys k := by
  induction keys with
  | nil => intro m k; simp [countOcc]
  | cons a keys ih =>
    intro m k
    simp only [List.foldl_cons, countOcc, ih, addKey]
    by_cases h : k = a
    · subst h; simp; omega
    · have h' : ¬ a = k := fun hh => h hh.symm
      simp [h, h']

theorem buildDist_eq_countOcc (keys : List String) (k : String) :
    buildDist keys k = countOcc keys k := by
  simpa using foldl_addKey keys (fun _ => 0) k

theorem countOcc_map_eq_filter_length {α : Type} (g : α → String) (k : String)
    (l : List α) : countOcc (l.map g) k = (l.filter (fun x => g x == k)).length := by
  induction l with
  | nil => simp [countOcc]
  | cons a l ih =>
    simp only [List.map_cons, countOcc, ih, List.filter_cons]
    by_cases h : g a = k
    · simp [h]
    · simp [h]

theorem countOcc_append (l1 l2 : List String) (k : String) :
    countOcc (l1 ++ l2) k = countOcc l1 k + countOcc l2 k := by
  induction l1 with
  | nil => simp [countOcc]
  | cons a l1 ih =>
    have h : (a :: l1) ++ l2 = a :: (l1 ++ l2) := rfl
    rw [h]
    simp only [countOcc]
    rw [ih]
    omega

theorem countOcc_replicate (N : Nat) (k : String) :
    countOcc (List.replicate N k) k = N := by
  induction N with
  | zero => simp [countOcc]
  | succ n ih => simp [List.replicate_succ, countOcc, ih]

/-- C1: `stats(owner)` is a pure read-time aggregation of `list(owner)`:
`total_files` is the number of the owner's records, `total_downloads` the sum
of their download counters, the kind breakdown counts the owner's records per
kind, and the result is a function of `list(owner)` alone (recomputed on every
call, no persisted counters of its own). -/
theorem stats_pure_aggregation (owner : String) (s : Store)
    (hk : ∀ r ∈ s.records, r.data_type ≠ "") :
    (statsOf owner s).total_files = (listFiles owner s).length ∧
    (statsOf owner s).total_downloads
      = ((listFiles owner s).map (fun r => r.download_count)).sum ∧
    (∀ k, (statsOf owner s).data_type_distribution k
      = ((listFiles owner s).filter (fun r => r.data_type == k)).length) ∧
    (∀ s', listFiles owner s' = listFiles owner s → statsOf owner s' = statsOf owner s) := by
  refine ⟨?_, ?_, ?_, ?_⟩
  · simp [statsOf, calculateStats]
  · simp only [statsOf, calculateStats]
    rw [foldl_add_jsOrZero]
    simp [List.map_map, Function.comp_def, toClient, jsOrZero]
  · intro k
    have hmem : ∀ r ∈ listFiles owner s, r.data_type ≠ "" :=
      fun r hr => hk r (List.mem_of_mem_filter hr)
    have h1 : (statsOf owner s).data_type_distribution k
        = countOcc ((listFiles owner s).map
            (fun r => jsOrString (toClient r).data_type "unknown")) k := by
      simp [statsOf, calculateStats, buildDist_eq_countOcc, List.map_map, Function.comp_def]
    rw [h1, countOcc_map_eq_filter_length]
    congr 1
    apply List.filter_congr
    intro r hr
    have hne := hmem r hr
    simp [toClient, jsOrString, hne]
  · intro s' hls
    simp [statsOf, hls]

theorem stats_pure_aggregation_witness :
    (∀ r ∈ sampleStore.records, r.data_type ≠ "") ∧
    ((statsOf "alice" sampleStore).total_files = (listFiles "alice" sampleStore).length ∧
     (statsOf "alice" sampleStore).total_downloads
       = ((listFiles "alice" sampleStore).map (fun r => r.download_count)).sum ∧
     (∀ k, (statsOf "alice" sampleStore).data_type_distribution k
       = ((listFiles "alice" sampleStore).filter (fun r => r.data_type == k)).length) ∧
     (∀ s', listFiles "alice" s' = listFiles "alice" sampleStore →
        statsOf "alice" s' = statsOf "alice" sampleStore)) :=
  ⟨by decide, stats_pure_aggregation "alice" sampleStore (by decide)⟩

/-- C10: `calculateStats` is total over arbitrary client file objects: a file
missing `download_count` contributes 0 to `total_downloads`, a file missing
`data_type` (resp. `file_type`) is counted under the key `unknown` of the
corresponding distribution, and `total_generations` always equals
`total_files`. -/
theorem calculateStats_total (files : List ClientFile) (f1 f2 f3 : ClientFile)
    (hd : f1.download_count = none) (hdt : f2.data_type = none)
    (hft : f3.file_type = none) :
    (calculateStats files).total_generations = (calculateStats files).total_files ∧
    (calculateStats (files ++ [f1])).total_downloads
      = (calculateStats files).total_downloads ∧
    (calculateStats (files ++ [f2])).data_type_distribution "unknown"
      = (calculateStats files).data_type_distribution "unknown" + 1 ∧
    (calculateStats (files ++ [f3])).file_type_distribution "unknown"
      = (calculateStats files).file_type_distribution "unknown" + 1 := by
  refine ⟨rfl, ?_, ?_, ?_⟩
  · simp only [calculateStats]
    rw [foldl_add_jsOrZero, foldl_add_jsOrZero]
    simp [hd, jsOrZero]
  · simp only [calculateStats, buildDist_eq_countOcc, List.map_append]
    rw [countOcc_append]
    simp [hdt, jsOrString, countOcc]
  · simp only [calculateStats, buildDist_eq_countOcc, List.map_append]
    rw [countOcc_append]
    simp [hft, jsOrString, countOcc]

theorem calculateStats_total_witness :
    ((⟨none, some "csv", none⟩ : ClientFile).download_count = none ∧
     (⟨none, some "csv", none⟩ : ClientFile).data_type = none ∧
     (⟨some "tabular", none, some 3⟩ : ClientFile).file_type = none) ∧
    ((calculateStats [⟨some "chat", some "json", some 4⟩]).total_generations
       = (calculateStats [⟨some "chat", some "json", some 4⟩]).total_files ∧
     (calculateStats ([⟨some "chat", some "json", some 4⟩] ++ [⟨none, some "csv", none⟩])).total_downloads
       = (calculateStats [⟨some "chat", some "json", some 4⟩]).total_downloads ∧
     (calculateStats ([⟨some "chat", some "json", some 4⟩] ++ [⟨none, some "csv", none⟩])).data_type_distribution "unknown"
       = (calculateStats [⟨some "chat", some "json", some 4⟩]).data_type_distribution "unknown" + 1 ∧
     (calculateStats ([⟨some "chat", some "json", some 4⟩] ++ [⟨some "tabular", none, some 3⟩])).file_type_distribution "unknown"
       = (calculateStats [⟨some "chat", some "json", some 4⟩]).file_type_distribution "unknown" + 1) :=
  ⟨⟨rfl, rfl, rfl⟩,
   calculateStats_total [⟨some "chat", some "json", some 4⟩]
     ⟨none, some "csv", none⟩ ⟨none, some "csv", none⟩ ⟨some "tabular", none, some 3⟩
     rfl rfl rfl⟩

/-- C2: for distinct users A and B and a record id owned by B, A's get,
download and delete on that id fail with `NotFound`, A's list never contains
the id, and the `NotFound` for another user's file is the same answer as the
`NotFound` for an absent file. -/
theorem owner_isolation (A B fid : String) (s : Store) (r : FileRecordS)
    (hAB : A ≠ B) (hfind : findRecord s fid = some r) (hown : r.owner = B)
    (hids : (s.records.map (fun q => q.id)).Nodup) :
    getFile A fid s = .error .NotFound ∧
    download A fid s = .error .NotFound ∧
    deleteFile A fid s = .error .NotFound ∧
    (∀ q ∈ listFiles A s, q.id ≠ fid) ∧
    (∀ fid', findRecord s fid' = none →
      getFile A fid' s = .error .NotFound ∧ getFile A fid' s = getFile A fid s) := by
  have hno : (r.owner == A) = false := by
    simp [hown]
    exact fun h => hAB h.symm
  have hget : getFile A fid s = .error .NotFound := by
    unfold getFile
    rw [hfind]
    simp [hno]
  refine ⟨hget, ?_, ?_, ?_, ?_⟩
  · unfold download
    rw [hget]
  · unfold deleteFile
    rw [hget]
  · intro q hq hqid
    have hq' := List.mem_filter.mp hq
    have hqmem : q ∈ s.records := hq'.1
    have hqA : q.owner = A := by
      have := hq'.2
      simpa using this
    have hrmem : r ∈ s.records := by
      unfold findRecord at hfind
      exact List.mem_of_find?_eq_some hfind
    have hrid : r.id = fid := by
      unfold findRecord at hfind
      have := List.find?_some hfind
      simpa using this
    have hqr : q = r :=
      List.inj_on_of_nodup_map hids hqmem hrmem (by rw [hqid, hrid])
    rw [hqr, hown] at hqA
    exact hAB hqA.symm
  · intro fid' habs
    have h1 : getFile A fid' s = .error .NotFound := by
      unfold getFile
      rw [habs]
    exact ⟨h1, by rw [h1, hget]⟩

theorem owner_isolation_witness :
    ("alice" ≠ "bob" ∧
     findRecord sampleStore "f2"
       = some { id := "f2", owner := "bob", filename := "b1.json", data_type := "chat",
                model_type := "customer_support", file_type := "json",
                size := 5, download_count := 1 } ∧
     (sampleStore.records.map (fun q => q.id)).Nodup) ∧
    (getFile "alice" "f2" sampleStore = .error .NotFound ∧
     download "alice" "f2" sampleStore = .error .NotFound ∧
     deleteFile "alice" "f2" sampleStore = .error .NotFound ∧
     (∀ q ∈ listFiles "alice" sampleStore, q.id ≠ "f2") ∧
     (∀ fid', findRecord sampleStore fid' = none →
       getFile "alice" fid' sampleStore = .error .NotFound ∧
       getFile "alice" fid' sampleStore = getFile "alice" "f2" sampleStore)) :=
  ⟨⟨by decide, by decide, by decide⟩,
   owner_isolation "alice" "bob" "f2" sampleStore
     { id := "f2", owner := "bob", filename := "b1.json", data_type := "chat",
       model_type := "customer_support", file_type := "json",
       size := 5, download_count := 1 }
     (by decide) (by decide) (by decide) (by decide)⟩

theorem validRequest_eq_false_of_count_low {req : GenRequest} (h : req.count < 1) :
    validRequest req = false := by
  rw [Bool.eq_false_iff]
  intro hval
  rw [validRequest] at hval
  simp only [Bool.and_eq_true, decide_eq_true_eq] at hval
  omega

theorem validRequest_eq_false_of_count_high {req : GenRequest}
    (h : maxAllowed req.kind < req.count) : validRequest req = false := by
  rw [Bool.eq_false_iff]
  intro hval
  rw [validRequest] at hval
  simp only [Bool.and_eq_true, decide_eq_true_eq] at hval
  omega

theorem validRequest_eq_false_of_bad_domain {req : GenRequest}
    (h : req.domain ∉ kindDomains req.kind) : validRequest req = false := by
  rw [Bool.eq_false_iff]
  intro hval
  rw [validRequest] at hval
  simp only [Bool.and_eq_true, decide_eq_true_eq] at hval
  exact h hval.1.2

theorem maxAllowed_le (kind : String) : maxAllowed kind ≤ 10000 := by
  unfold maxAllowed
  split <;> omega

theorem generate_of_invalid {owner : String} {req : GenRequest} {collab : CollabResult}
    {storageOk : Bool} {fid fname : String} {s : Store}
    (h : validRequest req = false) :
    generate owner req collab storageOk fid fname s = (s, .error .InvalidRequest) := by
  simp [generate, h]

/-- C3: a request whose count lies outside `[1, maxAllowed kind]` or whose
domain is not in the enumerated set for its kind is rejected with
`InvalidRequest` and leaves the store unchanged (no FileRecord created); in
particular any request with `num_samples = 999999` is rejected this way. -/
theorem generate_invalid_request (owner : String) (req : GenRequest)
    (collab : CollabResult) (storageOk : Bool) (fid fname : String) (s : Store)
    (h : req.count < 1 ∨ maxAllowed req.kind < req.count ∨
      req.domain ∉ kindDomains req.kind) :
    generate owner req collab storageOk fid fname s = (s, .error .InvalidRequest) ∧
    (∀ req' : GenRequest, req'.count = 999999 →
      generate owner req' collab storageOk fid fname s = (s, .error .InvalidRequest)) := by
  constructor
  · rcases h with h | h | h
    · exact generate_of_invalid (validRequest_eq_false_of_count_low h)
    · exact generate_of_invalid (validRequest_eq_false_of_count_high h)
    · exact generate_of_invalid (validRequest_eq_false_of_bad_domain h)
  · intro req' hc
    have hmax := maxAllowed_le req'.kind
    exact generate_of_invalid (validRequest_eq_false_of_count_high (by omega))

theorem generate_invalid_request_witness :
    ((⟨"tabular", "finance", 999999, "csv", none⟩ : GenRequest).count < 1 ∨
     maxAllowed (⟨"tabular", "finance", 999999, "csv", none⟩ : GenRequest).kind
       < (⟨"tabular", "finance", 999999, "csv", none⟩ : GenRequest).count ∨
     (⟨"tabular", "finance", 999999, "csv", none⟩ : GenRequest).domain
       ∉ kindDomains (⟨"tabular", "finance", 999999, "csv", none⟩ : GenRequest).kind) ∧
    (generate "alice" ⟨"tabular", "finance", 999999, "csv", none⟩
        CollabResult.failure true "f9" "x.csv" sampleStore
      = (sampleStore, .error .InvalidRequest) ∧
     (∀ req' : GenRequest, req'.count = 999999 →
       generate "alice" req' CollabResult.failure true "f9" "x.csv" sampleStore
         = (sampleStore, .error .InvalidRequest))) :=
  ⟨Or.inr (Or.inl (by decide)),
   generate_invalid_request "alice" ⟨"tabular", "finance", 999999, "csv", none⟩
     CollabResult.failure true "f9" "x.csv" sampleStore
     (Or.inr (Or.inl (by decide)))⟩

/-- C4: whenever the external collaborator errors, the call exceeds the time
bound, or persistence fails, generation is all-or-nothing: the store is
unchanged, the result is an error, the owner's list is untouched (the failed
generation never appears in it), and no FileRecord referencing missing
content is introduced. -/
theorem generate_all_or_nothing (owner : String) (req : GenRequest)
    (collab : CollabResult) (storageOk : Bool) (fid fname : String) (s : Store)
    (hcause : collab = CollabResult.failure ∨
      (∃ rows d, collab = CollabResult.result rows d ∧ timeoutLimit < d) ∨
      storageOk = false) :
    (generate owner req collab storageOk fid fname s).1 = s ∧
    (∃ e, (generate owner req collab storageOk fid fname s).2 = .error e) ∧
    listFiles owner (generate owner req collab storageOk fid fname s).1
      = listFiles owner s ∧
    (wellFormed s → wellFormed (generate owner req collab storageOk fid fname s).1) := by
  have key : (generate owner req collab storageOk fid fname s).1 = s ∧
      ∃ e, (generate owner req collab storageOk fid fname s).2 = .error e := by
    unfold generate
    rcases hcause with hc | ⟨rows, d, hc, hd⟩ | hc
    · subst hc
      by_cases hv : validRequest req = true
      · simp [hv]
      · simp [hv]
    · subst hc
      by_cases hv : validRequest req = true
      · simp [hv, hd]
      · simp [hv]
    · subst hc
      by_cases hv : validRequest req = true
      · cases collab with
        | failure => simp [hv]
        | result rows d =>
          by_cases hd : timeoutLimit < d
          · simp [hv, hd]
          · simp [hv, hd]
      · simp [hv]
  refine ⟨key.1, key.2, ?_, ?_⟩
  · rw [key.1]
  · intro hwf
    rw [key.1]
    exact hwf

theorem generate_all_or_nothing_witness :
    ((CollabResult.failure = CollabResult.failure ∨
      (∃ rows d, CollabResult.failure = CollabResult.result rows d ∧ timeoutLimit < d) ∨
      (true : Bool) = false)) ∧
    ((generate "alice" ⟨"tabular", "finance", 50, "json", none⟩
        CollabResult.failure true "f9" "x.json" sampleStore).1 = sampleStore ∧
     (∃ e, (generate "alice" ⟨"tabular", "finance", 50, "json", none⟩
        CollabResult.failure true "f9" "x.json" sampleStore).2 = .error e) ∧
     listFiles "alice" (generate "alice" ⟨"tabular", "finance", 50, "json", none⟩
        CollabResult.failure true "f9" "x.json" sampleStore).1
       = listFiles "alice" sampleStore ∧
     (wellFormed sampleStore →
       wellFormed (generate "alice" ⟨"tabular", "finance", 50, "json", none⟩
         CollabResult.failure true "f9" "x.json" sampleStore).1)) :=
  ⟨Or.inl rfl,
   generate_all_or_nothing "alice" ⟨"tabular", "finance", 50, "json", none⟩
     CollabResult.failure true "f9" "x.json" sampleStore (Or.inl rfl)⟩

/-- C8: the external collaborator call is bounded by `timeoutLimit = 30` time
units (the frontend mirrors the bound with 30000 ms client and proxy
timeouts); whenever the call's duration exceeds the bound, the whole valid
generation fails cleanly with `GeneratorUnavailable`, with no FileRecord
created and no orphan content left. -/
theorem generate_timeout_clean (owner : String) (req : GenRequest)
    (rows : List (List String)) (d : Nat) (storageOk : Bool)
    (fid fname : String) (s : Store)
    (hv : validRequest req = true) (hd : timeoutLimit < d) :
    generate owner req (CollabResult.result rows d) storageOk fid fname s
      = (s, .error .GeneratorUnavailable) ∧
    timeoutLimit = 30 ∧ clientTimeoutMs = 30000 ∧ proxyTimeoutMs = 30000 := by
  refine ⟨?_, rfl, rfl, rfl⟩
  unfold generate
  simp [hv, hd]

theorem generate_timeout_clean_witness :
    (validRequest ⟨"chat", "customer_support", 10, "json", some 5⟩ = true ∧
     timeoutLimit < 31) ∧
    (generate "alice" ⟨"chat", "customer_support", 10, "json", some 5⟩
        (CollabResult.result [] 31) true "f9" "x.json" sampleStore
      = (sampleStore, .error .GeneratorUnavailable) ∧
     timeoutLimit = 30 ∧ clientTimeoutMs = 30000 ∧ proxyTimeoutMs = 30000) :=
  ⟨⟨by decide, by decide⟩,
   generate_timeout_clean "alice" ⟨"chat", "customer_support", 10, "json", some 5⟩
     [] 31 true "f9" "x.json" sampleStore (by decide) (by decide)⟩

theorem serialize_length_pos (format : String) (rows : List (List String)) :
    0 < (serialize format rows).length := by
  unfold serialize
  split
  · simp
  · simp [serializeRow]

theorem generate_ok_shape {owner : String} {req : GenRequest} {collab : CollabResult}
    {storageOk : Bool} {fid fname : String} {s : Store} {r : FileRecordS}
    (h : (generate owner req collab storageOk fid fname s).2 = .ok r) :
    ∃ rows d, collab = CollabResult.result rows d ∧
      r = mkRecord owner req rows fid fname ∧
      (generate owner req collab storageOk fid fname s).1
        = { records := r :: s.records,
            contents := (fname, serialize req.format rows) :: s.contents } := by
  unfold generate at h ⊢
  by_cases hv : validRequest req = true
  · cases collab with
    | failure => simp [hv] at h
    | result rows d =>
      by_cases hd : timeoutLimit < d
      · simp [hv, hd] at h
      · by_cases hs : storageOk = true
        · simp [hv, hd, hs] at h
          exact ⟨rows, d, rfl, h.symm, by simp [hv, hd, hs, h]⟩
        · simp [hv, hd, hs] at h
  · simp [hv] at h

/-- C5: a successful generation creates exactly one new FileRecord, owned by
the requester, whose backing content is present and whose byte size is
positive. -/
theorem generate_success_one_record (owner : String) (req : GenRequest)
    (collab : CollabResult) (storageOk : Bool) (fid fname : String) (s : Store)
    (r : FileRecordS)
    (h : (generate owner req collab storageOk fid fname s).2 = .ok r) :
    (generate owner req collab storageOk fid fname s).1.records = r :: s.records ∧
    r.owner = owner ∧
    (∃ b, lookupContent (generate owner req collab storageOk fid fname s).1 r.filename
        = some b ∧ b.length = r.size) ∧
    0 < r.size := by
  obtain ⟨rows, d, hc, hr, hst⟩ := generate_ok_shape h
  have hfn : r.filename = fname := by rw [hr]; rfl
  refine ⟨by rw [hst], by rw [hr]; rfl, ?_, ?_⟩
  · refine ⟨serialize req.format rows, ?_, by rw [hr]; rfl⟩
    rw [hst]
    simp [lookupContent, hfn]
  · rw [hr]
    exact serialize_length_pos req.format rows

theorem generate_success_one_record_witness :
    ((generate "alice" ⟨"tabular", "finance", 50, "json", none⟩
        (CollabResult.result [] 7) true "f9" "x.json" sampleStore).2
      = .ok (mkRecord "alice" ⟨"tabular", "finance", 50, "json", none⟩ [] "f9" "x.json")) ∧
    ((generate "alice" ⟨"tabular", "finance", 50, "json", none⟩
        (CollabResult.result [] 7) true "f9" "x.json" sampleStore).1.records
      = mkRecord "alice" ⟨"tabular", "finance", 50, "json", none⟩ [] "f9" "x.json"
          :: sampleStore.records ∧
     (mkRecord "alice" ⟨"tabular", "finance", 50, "json", none⟩ [] "f9" "x.json").owner
       = "alice" ∧
     (∃ b, lookupContent (generate "alice" ⟨"tabular", "finance", 50, "json", none⟩
        (CollabResult.result [] 7) true "f9" "x.json" sampleStore).1
          (mkRecord "alice" ⟨"tabular", "finance", 50, "json", none⟩ [] "f9" "x.json").filename
        = some b ∧
        b.length = (mkRecord "alice" ⟨"tabular", "finance", 50, "json", none⟩ [] "f9" "x.json").size) ∧
     0 < (mkRecord "alice" ⟨"tabular", "finance", 50, "json", none⟩ [] "f9" "x.json").size) :=
  ⟨rfl,
   generate_success_one_record "alice" ⟨"tabular", "finance", 50, "json", none⟩
     (CollabResult.result [] 7) true "f9" "x.json" sampleStore
     (mkRecord "alice" ⟨"tabular", "finance", 50, "json", none⟩ [] "f9" "x.json")
     rfl⟩

/-- C9: the body posted to `POST /generate/chat` carries exactly the fields
`domain`, `topic`, `num_samples`, `num_turns` and `format` (in that order, as
built by `ChatGeneration.handleSubmit`), and a successful chat generation
yields a nonempty byte stream together with a registry entry for the
requesting user. -/
theorem chat_request_fields (f : ChatForm) (owner : String) (req : GenRequest)
    (collab : CollabResult) (storageOk : Bool) (fid fname : String) (s : Store)
    (r : FileRecordS) (hkind : req.kind = "chat")
    (hok : (generate owner req collab storageOk fid fname s).2 = .ok r) :
    (chatRequestBody f).map Prod.fst
      = ["domain", "topic", "num_samples", "num_turns", "format"] ∧
    r.owner = owner ∧ r.data_type = "chat" ∧
    (generate owner req collab storageOk fid fname s).1.records = r :: s.records ∧
    (∃ b, lookupContent (generate owner req collab storageOk fid fname s).1 r.filename
        = some b ∧ b ≠ []) := by
  obtain ⟨rows, d, hc, hr, hst⟩ := generate_ok_shape hok
  have hfn : r.filename = fname := by rw [hr]; rfl
  refine ⟨rfl, by rw [hr]; rfl, by rw [hr]; exact hkind, by rw [hst], ?_⟩
  refine ⟨serialize req.format rows, ?_, ?_⟩
  · rw [hst]
    simp [lookupContent, hfn]
  · intro hnil
    have hpos := serialize_length_pos req.format rows
    rw [hnil] at hpos
    simp at hpos

theorem chat_request_fields_witness :
    ((⟨"chat", "customer_support", 10, "json", some 5⟩ : GenRequest).kind = "chat" ∧
     (generate "alice" ⟨"chat", "customer_support", 10, "json", some 5⟩
        (CollabResult.result [] 3) true "f9" "c.json" sampleStore).2
       = .ok (mkRecord "alice" ⟨"chat", "customer_support", 10, "json", some 5⟩ [] "f9" "c.json")) ∧
    ((chatRequestBody ⟨"chat", "customer_support", 10, 5, "json"⟩).map Prod.fst
       = ["domain", "topic", "num_samples", "num_turns", "format"] ∧
     (mkRecord "alice" ⟨"chat", "customer_support", 10, "json", some 5⟩ [] "f9" "c.json").owner
       = "alice" ∧
     (mkRecord "alice" ⟨"chat", "customer_support", 10, "json", some 5⟩ [] "f9" "c.json").data_type
       = "chat" ∧
     (generate "alice" ⟨"chat", "customer_support", 10, "json", some 5⟩
        (CollabResult.result [] 3) true "f9" "c.json" sampleStore).1.records
       = mkRecord "alice" ⟨"chat", "customer_support", 10, "json", some 5⟩ [] "f9" "c.json"
           :: sampleStore.records ∧
     (∃ b, lookupContent (generate "alice" ⟨"chat", "customer_support", 10, "json", some 5⟩
        (CollabResult.result [] 3) true "f9" "c.json" sampleStore).1
          (mkRecord "alice" ⟨"chat", "customer_support", 10, "json", some 5⟩ [] "f9" "c.json").filename
        = some b ∧ b ≠ [])) :=
  ⟨⟨rfl, rfl⟩,
   chat_request_fields ⟨"chat", "customer_support", 10, 5, "json"⟩ "alice"
     ⟨"chat", "customer_support", 10, "json", some 5⟩
     (CollabResult.result [] 3) true "f9" "c.json" sampleStore
     (mkRecord "alice" ⟨"chat", "customer_support", 10, "json", some 5⟩ [] "f9" "c.json")
     rfl rfl⟩

theorem bump_id (fid : String) (r : FileRecordS) : (bump fid r).id = r.id := by
  unfold bump
  split <;> rfl

theorem findRecord_atomicIncr (s : Store) (a fid : String) :
    findRecord (atomicIncr s a) fid = (findRecord s fid).map (bump a) := by
  unfold findRecord atomicIncr
  rw [List.find?_map]
  have hp : ((fun r => r.id == fid) ∘ bump a) = (fun (r : FileRecordS) => r.id == fid) := by
    funext r
    show ((bump a r).id == fid) = (r.id == fid)
    rw [bump_id]
  rw [hp]

theorem runSchedule_findRecord (fid : String) (ops : List String) :
    ∀ (s : Store) (r : FileRecordS), findRecord s fid = some r →
      findRecord (runSchedule s ops) fid
        = some { r with download_count := r.download_count + countOcc ops fid } := by
  induction ops with
  | nil =>
    intro s r h
    simpa [runSchedule, countOcc] using h
  | cons a ops ih =>
    intro s r h
    have hrid : r.id = fid := by
      unfold findRecord at h
      have := List.find?_some h
      simpa using this
    have hstep : runSchedule s (a :: ops) = runSchedule (atomicIncr s a) ops := rfl
    by_cases ha : fid = a
    · subst ha
      have h1 : findRecord (atomicIncr s fid) fid
          = some { r with download_count := r.download_count + 1 } := by
        rw [findRecord_atomicIncr, h]
        simp [bump, hrid]
      have h2 := ih (atomicIncr s fid) _ h1
      rw [hstep, h2]
      simp [countOcc]
      omega
    · have ha' : ¬ a = fid := fun hh => ha hh.symm
      have h1 : findRecord (atomicIncr s a) fid = some r := by
        rw [findRecord_atomicIncr, h]
        simp [bump, hrid, ha]
      have h2 := ih (atomicIncr s a) r h1
      rw [hstep, h2]
      simp [countOcc, ha']

/-- C6: downloads are lost-update-free because the counter update is one
atomic store transition: under any interleaving `ops` of atomic downloads the
counter of a file grows by exactly its number of occurrences in the schedule,
and in particular N concurrent downloads of the same file (interleaved in any
order, which for identical atomic steps is the schedule `replicate N fid`)
increase its counter by exactly N. -/
theorem concurrent_downloads_exact (s : Store) (fid : String) (r : FileRecordS)
    (ops : List String) (N : Nat) (h : findRecord s fid = some r) :
    findRecord (runSchedule s ops) fid
      = some { r with download_count := r.download_count + countOcc ops fid } ∧
    findRecord (runSchedule s (List.replicate N fid)) fid
      = some { r with download_count := r.download_count + N } := by
  refine ⟨runSchedule_findRecord fid ops s r h, ?_⟩
  rw [runSchedule_findRecord fid (List.replicate N fid) s r h, countOcc_replicate]

theorem concurrent_downloads_exact_witness :
    (findRecord sampleStore "f1"
      = some { id := "f1", owner := "alice", filename := "a1.csv", data_type := "tabular",
               model_type := "finance", file_type := "csv", size := 10, download_count := 2 }) ∧
    (findRecord (runSchedule sampleStore ["f1", "f2", "f1"]) "f1"
      = some { id := "f1", owner := "alice", filename := "a1.csv", data_type := "tabular",
               model_type := "finance", file_type := "csv", size := 10,
               download_count := 2 + countOcc ["f1", "f2", "f1"] "f1" } ∧
     findRecord (runSchedule sampleStore (List.replicate 3 "f1")) "f1"
      = some { id := "f1", owner := "alice", filename := "a1.csv", data_type := "tabular",
               model_type := "finance", file_type := "csv", size := 10,
               download_count := 2 + 3 }) :=
  ⟨rfl,
   concurrent_downloads_exact sampleStore "f1"
     { id := "f1", owner := "alice", filename := "a1.csv", data_type := "tabular",
       model_type := "finance", file_type := "csv", size := 10, download_count := 2 }
     ["f1", "f2", "f1"] 3 rfl⟩

/-- C7: after a successful `delete(owner, fileId)` both the FileRecord and
its backing content are gone, and a repeated delete of the same id returns
`NotFound` — delete is idempotent in effect. -/
theorem delete_idempotent_effect (owner fid : String) (s s' : Store)
    (r : FileRecordS) (hdel : deleteFile owner fid s = .ok s')
    (hr : findRecord s fid = some r) :
    findRecord s' fid = none ∧
    lookupContent s' r.filename = none ∧
    deleteFile owner fid s' = .error .NotFound := by
  have hs' : s' = { records := s.records.filter (fun q => !(q.id == fid)),
                    contents := s.contents.filter (fun c => !(c.1 == r.filename)) } := by
    unfold deleteFile getFile at hdel
    rw [hr] at hdel
    by_cases how : (r.owner == owner) = true
    · simp [how] at hdel
      exact hdel.symm
    · simp [how] at hdel
  have hnone : findRecord s' fid = none := by
    rw [hs']
    unfold findRecord
    apply List.find?_eq_none.mpr
    intro x hx
    have hxp := (List.mem_filter.mp hx).2
    simp at hxp ⊢
    exact hxp
  refine ⟨hnone, ?_, ?_⟩
  · rw [hs']
    unfold lookupContent
    have hfn : List.find? (fun c => c.1 == r.filename)
        (s.contents.filter (fun c => !(c.1 == r.filename))) = none := by
      apply List.find?_eq_none.mpr
      intro x hx
      have hxp := (List.mem_filter.mp hx).2
      simp at hxp ⊢
      exact hxp
    rw [hfn]
    rfl
  · simp [deleteFile, getFile, hnone]

theorem delete_idempotent_effect_witness :
    (deleteFile "bob" "f2" sampleStore
      = .ok { records := [{ id := "f1", owner := "alice", filename := "a1.csv",
                            data_type := "tabular", model_type := "finance",
                            file_type := "csv", size := 10, download_count := 2 }]
              contents := [("a1.csv", ['x'])] } ∧
     findRecord sampleStore "f2"
      = some { id := "f2", owner := "bob", filename := "b1.json", data_type := "chat",
               model_type := "customer_support", file_type := "json",
               size := 5, download_count := 1 }) ∧
    (findRecord { records := [{ id := "f1", owner := "alice", filename := "a1.csv",
                                data_type := "tabular", model_type := "finance",
                                file_type := "csv", size := 10, download_count := 2 }]
                  contents := [("a1.csv", ['x'])] } "f2" = none ∧
     lookupContent { records := [{ id := "f1", owner := "alice", filename := "a1.csv",
                                   data_type := "tabular", model_type := "finance",
                                   file_type := "csv", size := 10, download_count := 2 }]
                     contents := [("a1.csv", ['x'])] } "b1.json" = none ∧
     deleteFile "bob" "f2" { records := [{ id := "f1", owner := "alice", filename := "a1.csv",
                                           data_type := "tabular", model_type := "finance",
                                           file_type := "csv", size := 10, download_count := 2 }]
                             contents := [("a1.csv", ['x'])] } = .error .NotFound) :=
  ⟨⟨rfl, rfl⟩,
   delete_idempotent_effect "bob" "f2" sampleStore
     { records := [{ id := "f1", owner := "alice", filename := "a1.csv",
                     data_type := "tabular", model_type := "finance",
                     file_type := "csv", size := 10, download_count := 2 }]
       contents := [("a1.csv", ['x'])] }
     { id := "f2", owner := "bob", filename := "b1.json", data_type := "chat",
       model_type := "customer_support", file_type := "json",
       size := 5, download_count := 1 }
     rfl rfl⟩
